import Mathlib

/-!
# Verification of the private-planner submission service (`src/app.py`)

Shallow embedding of the FastAPI application in `src/app.py`:

* The SQLite table `plans` is modelled by `Store`: a list of `PlanRow`
  together with the next `AUTOINCREMENT` id (SQLite assigns ids starting
  at 1, strictly increasing across inserts).
* The `TEXT` column `availabilities_json` holds `json.dumps` of a list of
  `{date, start, end}` objects; `admin_list` reads it back with
  `json.loads`.  Python guarantees `loads (dumps v) = v` on such values,
  so the column is modelled by the JSON tree itself (`Json`), with
  `availsToJson` playing the role of `json.dumps` (building the tree that
  is serialized) and `jsonToAvails` the role of decoding the tree back
  into the ordered sequence of `Availability`.
* `datetime.utcnow().isoformat()` is modelled by a `now : String`
  parameter to `submit`: the current UTC timestamp at the moment the
  request is accepted.
* `ADMIN_TOKEN = os.environ.get("PLANNER_ADMIN_TOKEN", "changeme")` is
  modelled as a function of the optional environment variable.
* Pydantic validation of the request body (`PlanIn`, lines 28–35) happens
  before the handler runs; FastAPI rejects a constraint violation with a
  422 client error.  This boundary is `pydanticValid` / `handle_submit`.
-/

/-- JSON values, as produced by Python's `json.dumps` / consumed by
`json.loads`.  Only the constructors used by the application matter. -/
inductive Json where
  | str : String → Json
  | arr : List Json → Json
  | obj : List (String × Json) → Json

/-- `Availability` (app.py lines 22–25): one date/time window. -/
structure Availability where
  date : String
  start : String
  «end» : String
deriving DecidableEq, Repr

/-- `PlanIn` (app.py lines 28–35): the request body.  `name` and `area`
are required (`Field(...)`), so they are plain strings; the four food
fields are `Optional[str]` with default `""` (an absent field becomes
`some ""`, an explicit JSON `null` becomes `none`). -/
structure PlanIn where
  name : String
  area : String
  availabilities : List Availability
  food_dislike : Option String
  food_weak : Option String
  food_cant : Option String
  food_want : Option String
deriving DecidableEq, Repr

/-- The length bounds of `PlanIn` (`max_length=100` on `name`,
`max_length=200` on `area`), enforced by pydantic at the boundary before
the handler is invoked.  `max_length` on a Python `str` counts code
points, as `String.length` does. -/
def pydanticValid (p : PlanIn) : Bool :=
  p.name.length ≤ 100 && p.area.length ≤ 200

/-- One row of the `plans` table (app.py lines 44–54).  The four food
columns are nullable in the schema, but every row written by `submit`
stores a (possibly empty) string, which is why they are `String` here:
`submit` is the only writer in the system. -/
structure PlanRow where
  id : Nat
  name : String
  area : String
  availabilities_json : Json
  food_dislike : String
  food_weak : String
  food_cant : String
  food_want : String
  created_at : String

/-- The persistence store: the `plans` table plus the next
`AUTOINCREMENT` id.  Rows are kept in insertion order. -/
structure Store where
  rows : List PlanRow
  nextId : Nat

/-- The store right after `init_db` on a fresh database: no rows,
`AUTOINCREMENT` will assign 1 to the first insert. -/
def emptyStore : Store := ⟨[], 1⟩

/-- `ADMIN_TOKEN` (app.py line 12):
`os.environ.get("PLANNER_ADMIN_TOKEN", "changeme")`. -/
def ADMIN_TOKEN (plannerAdminTokenEnv : Option String) : String :=
  plannerAdminTokenEnv.getD "changeme"

/-- The JSON object built for one availability in `submit`
(app.py lines 87–93): `{"date": a.date, "start": a.start, "end": a.end}`. -/
def availToJson (a : Availability) : Json :=
  Json.obj [("date", Json.str a.date), ("start", Json.str a.start),
            ("end", Json.str a.«end»)]

/-- The JSON array `json.dumps(avail_json_lines, ...)` serializes
(app.py lines 84–93, 107). -/
def availsToJson (l : List Availability) : Json :=
  Json.arr (l.map availToJson)

/-- Decoding one availability object back from its JSON form. -/
def jsonToAvail : Json → Option Availability
  | Json.obj [("date", Json.str d), ("start", Json.str s),
              ("end", Json.str e)] => some ⟨d, s, e⟩
  | _ => none

/-- Decoding a list of JSON values element by element; fails if any
element is not an availability object. -/
def jsonToAvailList : List Json → Option (List Availability)
  | [] => some []
  | j :: js =>
    match jsonToAvail j, jsonToAvailList js with
    | some a, some t => some (a :: t)
    | _, _ => none

/-- Decoding a stored `availabilities_json` value back into the ordered
sequence of availabilities. -/
def jsonToAvails : Json → Option (List Availability)
  | Json.arr l => jsonToAvailList l
  | _ => none

/-- Python's `x or ""` on an `Optional[str]` (app.py lines 108–111):
`None` and the falsy empty string both become `""`. -/
def orEmpty : Option String → String
  | none => ""
  | some s => if s = "" then "" else s

/-- Responses of the submit endpoint. `ok` is `{"ok": True}` (no
submission data echoed); `badRequest` is
`JSONResponse(status_code=400, {"ok": False, "error": ...})`;
`unprocessableEntity` is FastAPI's 422 on a pydantic validation
failure. -/
inductive SubmitResponse where
  | ok
  | badRequest (status : Nat) (error : String)
  | unprocessableEntity (status : Nat)
deriving DecidableEq, Repr

/-- The row inserted by `submit` (the VALUES tuple of app.py lines
97–114): the store-assigned id, the name and area, the serialized
availabilities, the four food fields with `or ""` defaulting, and
`created_at = datetime.utcnow().isoformat()` (the `now` parameter). -/
def submittedRow (s : Store) (plan : PlanIn) (now : String) : PlanRow :=
  { id := s.nextId
    name := plan.name
    area := plan.area
    availabilities_json := availsToJson plan.availabilities
    food_dislike := orEmpty plan.food_dislike
    food_weak := orEmpty plan.food_weak
    food_cant := orEmpty plan.food_cant
    food_want := orEmpty plan.food_want
    created_at := now }

/-- `submit` (app.py lines 74–117): reject an empty availabilities list
with a 400 and no write; otherwise insert exactly one row. -/
def submit (s : Store) (plan : PlanIn) (now : String) :
    SubmitResponse × Store :=
  if plan.availabilities.isEmpty then
    (SubmitResponse.badRequest 400 "空いている日・時間を1つ以上入力してください。", s)
  else
    (SubmitResponse.ok, ⟨s.rows ++ [submittedRow s plan now], s.nextId + 1⟩)

/-- The FastAPI boundary of `POST /api/submit`: pydantic validates the
body against `PlanIn` (app.py lines 28–35) and answers 422 without
running the handler when a length bound is violated. -/
def handle_submit (s : Store) (p : PlanIn) (now : String) :
    SubmitResponse × Store :=
  if pydanticValid p then submit s p now
  else (SubmitResponse.unprocessableEntity 422, s)

/-- Result of `require_admin` (app.py lines 120–124): either
`HTTPException(status_code=403, detail="Forbidden")` or `True`. -/
inductive AdminCheck where
  | forbidden (status : Nat) (detail : String)
  | allowed
deriving DecidableEq, Repr

/-- `require_admin` (app.py lines 120–124). -/
def require_admin (env : Option String) (token : String) : AdminCheck :=
  if token ≠ ADMIN_TOKEN env then AdminCheck.forbidden 403 "Forbidden"
  else AdminCheck.allowed

/-- One item of the `{"items": [...]}` payload built by `admin_list`
(app.py lines 222–236); `availabilities` is
`json.loads(r["availabilities_json"])`, i.e. the stored JSON tree. -/
structure Item where
  id : Nat
  name : String
  area : String
  availabilities : Json
  food_dislike : String
  food_weak : String
  food_cant : String
  food_want : String
  created_at : String

/-- The dict built from one fetched row (app.py lines 224–236). -/
def rowToItem (r : PlanRow) : Item :=
  { id := r.id
    name := r.name
    area := r.area
    availabilities := r.availabilities_json
    food_dislike := r.food_dislike
    food_weak := r.food_weak
    food_cant := r.food_cant
    food_want := r.food_want
    created_at := r.created_at }

/-- Insert a row into a list kept in descending-id order (a model of the
comparison SQLite performs for `ORDER BY id DESC`). -/
def insertDescById (r : PlanRow) : List PlanRow → List PlanRow
  | [] => [r]
  | x :: xs => if x.id ≤ r.id then r :: x :: xs else x :: insertDescById r xs

/-- `SELECT * FROM plans ORDER BY id DESC` (app.py lines 218–220):
the rows sorted by id, largest first. -/
def sortDescById (l : List PlanRow) : List PlanRow :=
  l.foldr insertDescById []

/-- `GET /api/admin/list` (app.py lines 210–237): `require_admin`, then
read all rows ordered by id descending and decode each row into an item.
The error carries only the HTTP status and detail — no submission
data. -/
def admin_list (env : Option String) (s : Store) (token : String) :
    Except (Nat × String) (List Item) :=
  match require_admin env token with
  | AdminCheck.forbidden status detail => Except.error (status, detail)
  | AdminCheck.allowed => Except.ok ((sortDescById s.rows).map rowToItem)

/-- The two operations of the system, for reasoning about arbitrary
sequences of calls. -/
inductive Op where
  | submitOp (p : PlanIn) (now : String)
  | listOp (token : String)

/-- The effect of one operation on the store.  `admin_list` executes a
single `SELECT` and no write, so its state effect is the identity. -/
def applyOp (s : Store) : Op → Store
  | Op.submitOp p now => (submit s p now).2
  | Op.listOp _ => s

/-- The store after a sequence of operations. -/
def applyOps (s : Store) : List Op → Store
  | [] => s
  | op :: ops => applyOps (applyOp s op) ops

/-- Well-formedness of a store: ids strictly increase along insertion
order and are all below the next `AUTOINCREMENT` value.  This is what
SQLite's `INTEGER PRIMARY KEY AUTOINCREMENT` guarantees for a table that
is only ever inserted into. -/
def Store.WF (s : Store) : Prop :=
  s.rows.Pairwise (fun a b => a.id < b.id) ∧ ∀ r ∈ s.rows, r.id < s.nextId

/-- Stores reachable from a fresh database by the system's only write
path. -/
inductive Reachable : Store → Prop where
  | empty : Reachable emptyStore
  | step (s : Store) (p : PlanIn) (now : String) :
      Reachable s → Reachable (submit s p now).2

/-- The availability window of the spec's concrete scenario. -/
def avail0 : Availability := ⟨"2025-11-20", "18:00", "21:00"⟩

/-- The spec's concrete scenario submission: name "Aki", area "Tokyo",
one availability, `food_want: "ramen"`, the other food fields left at
their pydantic default `""`. -/
def plan0 : PlanIn :=
  { name := "Aki", area := "Tokyo", availabilities := [avail0],
    food_dislike := some "", food_weak := some "", food_cant := some "",
    food_want := some "ramen" }

/-- A second submission, with food fields given as JSON `null` (`none`)
or the empty string. -/
def plan1 : PlanIn :=
  { name := "Yori", area := "Osaka",
    availabilities := [⟨"2025-11-21", "10:00", "12:00"⟩],
    food_dislike := none, food_weak := some "", food_cant := none,
    food_want := some "" }

/-- A submission with an empty availabilities list. -/
def planEmptyAvail : PlanIn :=
  { name := "Nob", area := "Kyoto", availabilities := [],
    food_dislike := some "", food_weak := some "", food_cant := some "",
    food_want := some "" }

/-- A submission whose name has 101 characters, violating
`max_length=100`. -/
def planLongName : PlanIn :=
  { name := String.mk (List.replicate 101 'a'), area := "Nara",
    availabilities := [avail0],
    food_dislike := some "", food_weak := some "", food_cant := some "",
    food_want := some "" }

/-- The store after submitting `plan0` to a fresh database. -/
def store1 : Store := (submit emptyStore plan0 "2025-11-20T12:00:00").2

/-- The store after additionally submitting `plan1`. -/
def store2 : Store := (submit store1 plan1 "2025-11-21T09:00:00").2

/-- Decoding inverts encoding on a single availability. -/
theorem jsonToAvail_availToJson (a : Availability) :
    jsonToAvail (availToJson a) = some a := rfl

/-- Decoding inverts encoding on a whole availability list. -/
theorem jsonToAvails_availsToJson (l : List Availability) :
    jsonToAvails (availsToJson l) = some l := by
  have h : ∀ m : List Availability, jsonToAvailList (m.map availToJson) = some m := by
    intro m
    induction m with
    | nil => rfl
    | cons a t ih =>
        simp [List.map_cons, jsonToAvailList, jsonToAvail_availToJson, ih]
  simpa [jsonToAvails, availsToJson] using h l

/-- Inserting a row whose id is below everything in the list puts it at
the back. -/
theorem insertDescById_of_lt (r : PlanRow) (m : List PlanRow)
    (h : ∀ x ∈ m, r.id < x.id) : insertDescById r m = m ++ [r] := by
  induction m with
  | nil => rfl
  | cons x xs ih =>
      have hx : r.id < x.id := h x (List.mem_cons_self x xs)
      have : ¬ x.id ≤ r.id := by omega
      simp [insertDescById, this, ih fun y hy => h y (List.mem_cons_of_mem x hy)]

/-- On a list with strictly increasing ids, sorting by descending id is
reversal. -/
theorem sortDescById_of_increasing (l : List PlanRow)
    (h : l.Pairwise (fun a b => a.id < b.id)) :
    sortDescById l = l.reverse := by
  induction l with
  | nil => rfl
  | cons x xs ih =>
      have hx : ∀ y ∈ xs, x.id < y.id := (List.pairwise_cons.mp h).1
      have hxs := (List.pairwise_cons.mp h).2
      have step : sortDescById (x :: xs) = insertDescById x (sortDescById xs) := rfl
      rw [step, ih hxs, insertDescById_of_lt x xs.reverse
        (fun y hy => hx y (List.mem_reverse.mp hy))]
      simp

/-- A successful `submit` preserves store well-formedness. -/
theorem submit_WF (s : Store) (p : PlanIn) (now : String) (h : Store.WF s) :
    Store.WF (submit s p now).2 := by
  by_cases he : p.availabilities.isEmpty
  · simpa [submit, he] using h
  · obtain ⟨hpw, hbound⟩ := h
    constructor
    · simp only [submit, he, if_false]
      refine List.pairwise_append.mpr ⟨hpw, List.pairwise_singleton _ _, ?_⟩
      intro a ha b hb
      simp only [List.mem_singleton] at hb
      subst hb
      exact hbound a ha
    · intro r hr
      simp only [submit, he, if_false] at hr ⊢
      rcases List.mem_append.mp hr with h1 | h1
      · exact Nat.lt_succ_of_lt (hbound r h1)
      · simp only [List.mem_singleton] at h1
        subst h1
        exact Nat.lt_succ_self _

/-- Every reachable store is well-formed. -/
theorem Reachable.wf (s : Store) (h : Reachable s) : Store.WF s := by
  induction h with
  | empty => exact ⟨List.Pairwise.nil, by intro r hr; cases hr⟩
  | step s p now _ ih => exact submit_WF s p now ih

/-- `x or ""` is the identity on values that are actually present. -/
theorem orEmpty_some (v : String) : orEmpty (some v) = v := by
  by_cases h : v = "" <;> simp [orEmpty, h]

/-- The fresh store is well-formed. -/
theorem emptyStore_WF : Store.WF emptyStore :=
  ⟨List.Pairwise.nil, fun r hr => absurd hr (List.not_mem_nil r)⟩

/-- Shape of a successful `submit`: the response is `{"ok": True}` and
the store gains exactly the row built at app.py lines 97–114. -/
theorem submit_success_eq (s : Store) (p : PlanIn) (now : String)
    (hne : p.availabilities ≠ []) :
    submit s p now = (SubmitResponse.ok,
      ⟨s.rows ++ [submittedRow s p now], s.nextId + 1⟩) := by
  have he : p.availabilities.isEmpty = false := by
    cases hpa : p.availabilities with
    | nil => exact absurd hpa hne
    | cons a t => rfl
  simp [submit, he]

/-- `admin_list` with the configured secret succeeds and returns the
rows in reverse insertion order (for a well-formed store). -/
theorem admin_list_correct_token (env : Option String) (s : Store)
    (h : Store.WF s) :
    admin_list env s (ADMIN_TOKEN env) =
      Except.ok ((s.rows.reverse).map rowToItem) := by
  simp [admin_list, require_admin, sortDescById_of_increasing s.rows h.1]

/-- C1: for every valid submission (non-empty availabilities, bounds
satisfied), `submit` followed by `admin_list` with the correct token
yields exactly one new record — the previous listing with one item
prepended — whose name, area and supplied food fields match the input
and whose availabilities field decodes back to the original ordered
sequence of date/start/end triples. -/
theorem submit_listAll_roundtrip (env : Option String) (s : Store)
    (p : PlanIn) (now : String) (hwf : Store.WF s)
    (_hval : pydanticValid p = true) (hne : p.availabilities ≠ []) :
    ∃ item : Item,
      (∀ old, admin_list env s (ADMIN_TOKEN env) = Except.ok old →
        admin_list env (submit s p now).2 (ADMIN_TOKEN env) =
          Except.ok (item :: old)) ∧
      item.name = p.name ∧ item.area = p.area ∧
      (∀ v, p.food_dislike = some v → item.food_dislike = v) ∧
      (∀ v, p.food_weak = some v → item.food_weak = v) ∧
      (∀ v, p.food_cant = some v → item.food_cant = v) ∧
      (∀ v, p.food_want = some v → item.food_want = v) ∧
      jsonToAvails item.availabilities = some p.availabilities := by
  refine ⟨rowToItem (submittedRow s p now), ?_, rfl, rfl, ?_, ?_, ?_, ?_, ?_⟩
  · intro old hold
    rw [admin_list_correct_token env s hwf] at hold
    have hold2 : old = (s.rows.reverse).map rowToItem :=
      (Except.ok.inj hold).symm
    subst hold2
    have hwf' := submit_WF s p now hwf
    rw [submit_success_eq s p now hne] at hwf' ⊢
    rw [admin_list_correct_token env _ hwf']
    simp
  · intro v hv
    simp [rowToItem, submittedRow, hv, orEmpty_some]
  · intro v hv
    simp [rowToItem, submittedRow, hv, orEmpty_some]
  · intro v hv
    simp [rowToItem, submittedRow, hv, orEmpty_some]
  · intro v hv
    simp [rowToItem, submittedRow, hv, orEmpty_some]
  · simp [rowToItem, submittedRow, jsonToAvails_availsToJson]

/-- Witness for C1 at the spec's concrete scenario against a fresh
store, with the environment variable unset. -/
theorem submit_listAll_roundtrip_witness :
    Store.WF emptyStore ∧ pydanticValid plan0 = true ∧
    plan0.availabilities ≠ [] ∧
    (∃ item : Item,
      (∀ old, admin_list none emptyStore (ADMIN_TOKEN none) = Except.ok old →
        admin_list none (submit emptyStore plan0 "2025-11-20T12:00:00").2
          (ADMIN_TOKEN none) = Except.ok (item :: old)) ∧
      item.name = plan0.name ∧ item.area = plan0.area ∧
      (∀ v, plan0.food_dislike = some v → item.food_dislike = v) ∧
      (∀ v, plan0.food_weak = some v → item.food_weak = v) ∧
      (∀ v, plan0.food_cant = some v → item.food_cant = v) ∧
      (∀ v, plan0.food_want = some v → item.food_want = v) ∧
      jsonToAvails item.availabilities = some plan0.availabilities) :=
  ⟨emptyStore_WF, by decide, by decide,
    submit_listAll_roundtrip none emptyStore plan0 "2025-11-20T12:00:00"
      emptyStore_WF (by decide) (by decide)⟩

/-- C2: submitting with an empty availabilities sequence fails with the
400 response carrying "空いている日・時間を1つ以上入力してください。" and leaves the
record count unchanged. -/
theorem submit_empty_availabilities (s : Store) (p : PlanIn) (now : String)
    (h : p.availabilities = []) :
    submit s p now =
      (SubmitResponse.badRequest 400 "空いている日・時間を1つ以上入力してください。", s) ∧
    (submit s p now).2.rows.length = s.rows.length := by
  have he : p.availabilities.isEmpty = true := by simp [h]
  exact ⟨by simp [submit, he], by simp [submit, he]⟩

/-- Witness for C2 at a concrete empty-availabilities submission. -/
theorem submit_empty_availabilities_witness :
    planEmptyAvail.availabilities = [] ∧
    (submit emptyStore planEmptyAvail "2025-11-20T12:00:00" =
      (SubmitResponse.badRequest 400 "空いている日・時間を1つ以上入力してください。",
        emptyStore) ∧
    (submit emptyStore planEmptyAvail "2025-11-20T12:00:00").2.rows.length =
      emptyStore.rows.length) :=
  ⟨rfl, submit_empty_availabilities emptyStore planEmptyAvail
    "2025-11-20T12:00:00" rfl⟩

/-- C3: `admin_list` fails (with the 403 "Forbidden" error, which
carries no submission data) if and only if the token differs from the
configured secret, and succeeds on exact equality. -/
theorem listAll_auth_gate (env : Option String) (s : Store)
    (token : String) :
    ((∃ e, admin_list env s token = Except.error e) ↔
      token ≠ ADMIN_TOKEN env) ∧
    (token ≠ ADMIN_TOKEN env →
      admin_list env s token = Except.error (403, "Forbidden")) ∧
    (token = ADMIN_TOKEN env →
      ∃ items, admin_list env s token = Except.ok items) := by
  by_cases h : token = ADMIN_TOKEN env
  · subst h
    refine ⟨?_, fun hne => absurd rfl hne,
      fun _ => ⟨(sortDescById s.rows).map rowToItem, ?_⟩⟩ <;>
      simp [admin_list, require_admin]
  · refine ⟨?_, fun _ => ?_, fun he => absurd he h⟩ <;>
      simp [admin_list, require_admin, h]

/-- Witness for C3: the empty token is rejected with 403 when the
secret is the default. -/
theorem listAll_auth_gate_witness :
    "" ≠ ADMIN_TOKEN none ∧
    admin_list none emptyStore "" = Except.error (403, "Forbidden") :=
  ⟨by decide, (listAll_auth_gate none emptyStore "").2.1 (by decide)⟩

/-- C4: on every store reachable through the system's write path, the
listing returned with the correct token is the reverse of insertion
order and is strictly sorted by descending id. -/
theorem listAll_desc_order (env : Option String) (s : Store)
    (h : Reachable s) :
    admin_list env s (ADMIN_TOKEN env) =
      Except.ok ((s.rows.reverse).map rowToItem) ∧
    ((s.rows.reverse).map rowToItem).Pairwise (fun a b => b.id < a.id) := by
  have hwf := Reachable.wf s h
  refine ⟨admin_list_correct_token env s hwf, ?_⟩
  rw [List.pairwise_map, List.pairwise_reverse]
  exact List.Pairwise.imp (fun hab => hab) hwf.1

/-- Witness for C4 on the store holding two concrete submissions. -/
theorem listAll_desc_order_witness :
    Reachable store2 ∧
    (admin_list none store2 (ADMIN_TOKEN none) =
      Except.ok ((store2.rows.reverse).map rowToItem) ∧
    ((store2.rows.reverse).map rowToItem).Pairwise
      (fun a b => b.id < a.id)) := by
  have h2 : Reachable store2 :=
    Reachable.step store1 plan1 "2025-11-21T09:00:00"
      (Reachable.step emptyStore plan0 "2025-11-20T12:00:00" Reachable.empty)
  exact ⟨h2, listAll_desc_order none store2 h2⟩

/-- C5: on success, `submit` performs exactly one insert — the store
gains precisely the submitted row, whose `created_at` is the current
UTC time supplied at acceptance — and answers `{"ok": True}` (a
constructor carrying no submission data); on any failure it performs
zero inserts. -/
theorem submit_write_effects (s : Store) (p : PlanIn) (now : String) :
    ((submit s p now).1 = SubmitResponse.ok →
      (submit s p now).2.rows = s.rows ++ [submittedRow s p now] ∧
      (submittedRow s p now).created_at = now) ∧
    ((submit s p now).1 ≠ SubmitResponse.ok → (submit s p now).2 = s) := by
  cases hpa : p.availabilities with
  | nil =>
      have he : p.availabilities.isEmpty = true := by simp [hpa]
      constructor
      · intro hok
        exact absurd hok (by simp [submit, he])
      · intro _
        simp [submit, he]
  | cons a t =>
      have hne : p.availabilities ≠ [] := by simp [hpa]
      constructor
      · intro _
        rw [submit_success_eq s p now hne]
        exact ⟨rfl, rfl⟩
      · intro hnot
        exact absurd (by rw [submit_success_eq s p now hne]) hnot

/-- Witness for C5 at the spec's concrete scenario. -/
theorem submit_write_effects_witness :
    (submit emptyStore plan0 "2025-11-20T12:00:00").1 = SubmitResponse.ok ∧
    ((submit emptyStore plan0 "2025-11-20T12:00:00").2.rows =
        emptyStore.rows ++
          [submittedRow emptyStore plan0 "2025-11-20T12:00:00"] ∧
      (submittedRow emptyStore plan0 "2025-11-20T12:00:00").created_at =
        "2025-11-20T12:00:00") :=
  ⟨rfl, (submit_write_effects emptyStore plan0 "2025-11-20T12:00:00").1 rfl⟩

/-- C6: a submission violating the `name` (≤ 100) or `area` (≤ 200)
length bound is rejected at the pydantic boundary with a 422 client
error before the handler runs, and nothing is persisted. -/
theorem oversized_submission_rejected (s : Store) (p : PlanIn)
    (now : String) (h : ¬(p.name.length ≤ 100 ∧ p.area.length ≤ 200)) :
    handle_submit s p now = (SubmitResponse.unprocessableEntity 422, s) := by
  cases hv : pydanticValid p with
  | false => simp [handle_submit, hv]
  | true => exact absurd (by simpa [pydanticValid] using hv) h

/-- Witness for C6 at a 101-character name. -/
theorem oversized_submission_rejected_witness :
    ¬(planLongName.name.length ≤ 100 ∧ planLongName.area.length ≤ 200) ∧
    handle_submit emptyStore planLongName "2025-11-20T12:00:00" =
      (SubmitResponse.unprocessableEntity 422, emptyStore) :=
  ⟨by decide, oversized_submission_rejected emptyStore planLongName
    "2025-11-20T12:00:00" (by decide)⟩

/-- C7: with the correct token, listing an empty store is a success
carrying the empty sequence, not an error. -/
theorem listAll_empty_store (env : Option String) (s : Store)
    (h : s.rows = []) :
    admin_list env s (ADMIN_TOKEN env) = Except.ok [] := by
  simp [admin_list, require_admin, h, sortDescById]

/-- Witness for C7 on the fresh store with the environment variable
unset. -/
theorem listAll_empty_store_witness :
    emptyStore.rows = [] ∧
    admin_list none emptyStore (ADMIN_TOKEN none) = Except.ok [] :=
  ⟨rfl, listAll_empty_store none emptyStore rfl⟩

/-- A single operation only ever appends rows. -/
theorem applyOp_rows_extend (s : Store) (op : Op) :
    ∃ t, (applyOp s op).rows = s.rows ++ t := by
  cases op with
  | listOp tok => exact ⟨[], by simp [applyOp]⟩
  | submitOp p now =>
      cases hpa : p.availabilities with
      | nil =>
          have he : p.availabilities.isEmpty = true := by simp [hpa]
          exact ⟨[], by simp [applyOp, submit, he]⟩
      | cons a t =>
          have hne : p.availabilities ≠ [] := by simp [hpa]
          exact ⟨[submittedRow s p now],
            by simp [applyOp, submit_success_eq s p now hne]⟩

/-- C8: across any sequence of submit and list operations, stored rows
are never mutated or deleted — every prior row survives unchanged, in
place, with rows only appended after it — and the list operation has no
effect on the store. -/
theorem submissions_never_mutated (s : Store) (ops : List Op) :
    (∃ t, (applyOps s ops).rows = s.rows ++ t) ∧
    (∀ token, applyOp s (Op.listOp token) = s) := by
  refine ⟨?_, fun _ => rfl⟩
  induction ops generalizing s with
  | nil => exact ⟨[], by simp [applyOps]⟩
  | cons op rest ih =>
      obtain ⟨t1, ht1⟩ := applyOp_rows_extend s op
      obtain ⟨t2, ht2⟩ := ih (applyOp s op)
      refine ⟨t1 ++ t2, ?_⟩
      show (applyOps (applyOp s op) rest).rows = s.rows ++ (t1 ++ t2)
      rw [ht2, ht1, List.append_assoc]

/-- C9: when a food-preference field arrives absent (pydantic default
`""`), as JSON `null` (`none`), or as the empty string, the persisted
value is the empty string; rows written by `submit` carry strings,
never nulls. -/
theorem food_fields_default_empty (s : Store) (p : PlanIn) (now : String)
    (hne : p.availabilities ≠ []) :
    ∃ r : PlanRow, (submit s p now).2.rows = s.rows ++ [r] ∧
      ((p.food_dislike = none ∨ p.food_dislike = some "") →
        r.food_dislike = "") ∧
      ((p.food_weak = none ∨ p.food_weak = some "") → r.food_weak = "") ∧
      ((p.food_cant = none ∨ p.food_cant = some "") → r.food_cant = "") ∧
      ((p.food_want = none ∨ p.food_want = some "") → r.food_want = "") := by
  refine ⟨submittedRow s p now, ?_, ?_, ?_, ?_, ?_⟩
  · rw [submit_success_eq s p now hne]
  · rintro (h | h) <;> simp [submittedRow, orEmpty, h]
  · rintro (h | h) <;> simp [submittedRow, orEmpty, h]
  · rintro (h | h) <;> simp [submittedRow, orEmpty, h]
  · rintro (h | h) <;> simp [submittedRow, orEmpty, h]

/-- Witness for C9 at a submission mixing `null` and empty food
fields. -/
theorem food_fields_default_empty_witness :
    plan1.availabilities ≠ [] ∧
    (∃ r : PlanRow,
      (submit emptyStore plan1 "2025-11-21T09:00:00").2.rows =
        emptyStore.rows ++ [r] ∧
      ((plan1.food_dislike = none ∨ plan1.food_dislike = some "") →
        r.food_dislike = "") ∧
      ((plan1.food_weak = none ∨ plan1.food_weak = some "") →
        r.food_weak = "") ∧
      ((plan1.food_cant = none ∨ plan1.food_cant = some "") →
        r.food_cant = "") ∧
      ((plan1.food_want = none ∨ plan1.food_want = some "") →
        r.food_want = "")) :=
  ⟨by decide, food_fields_default_empty emptyStore plan1
    "2025-11-21T09:00:00" (by decide)⟩

/-- C10: with `PLANNER_ADMIN_TOKEN` unset, the admin secret defaults to
"changeme": that token is authorized and every other token is rejected
with 403. -/
theorem admin_token_default (s : Store) (t : String) :
    ADMIN_TOKEN none = "changeme" ∧
    admin_list none s "changeme" =
      Except.ok ((sortDescById s.rows).map rowToItem) ∧
    (t ≠ "changeme" →
      admin_list none s t = Except.error (403, "Forbidden")) := by
  refine ⟨rfl, ?_, fun h => ?_⟩
  · simp [admin_list, require_admin, ADMIN_TOKEN]
  · simp [admin_list, require_admin, ADMIN_TOKEN, h]

/-- Witness for C10: the token "wrong" is rejected under the default
secret. -/
theorem admin_token_default_witness :
    "wrong" ≠ "changeme" ∧
    admin_list none emptyStore "wrong" = Except.error (403, "Forbidden") :=
  ⟨by decide, (admin_token_default emptyStore "wrong").2.2 (by decide)⟩
